import Mathlib

/-!
Verification of the attribution and aggregation engine of the
`seguimiento-autores-infobae` dashboard (`src/streamlit_app.py`).

The program's logic lives in SQL string templates executed against two
logical tables: an editorial event log (`arc_editorial_activity`) and a
traffic fact table.  We embed the relevant relational computations as
executable Lean functions over lists of rows and prove the spec's claims
about them.

Conventions of the embedding:
* A SQL table is a `List` of rows; `NULL` is `Option.none`.
* `DATE(event_timestamp)` is modelled as a separate `day` field (the SQL
  only ever compares dates of events and orders by the full timestamp,
  so the two fields are used exactly where the SQL uses each).
* `ROW_NUMBER() OVER (PARTITION BY note_id ORDER BY event_timestamp)`
  rank 1 is modelled as the event with minimal timestamp (first in list
  order on ties; SQL leaves ties unspecified).
-/

namespace Infobae

/-- One row of the editorial activity table
(`arc_editorial_activity`): see the column list used throughout
`streamlit_app.py` (`note_id, email_editor, action_type,
event_timestamp, story_url, segment, source`). -/
structure Event where
  note_id : Nat
  email_editor : Option String
  action_type : String
  ts : Nat
  day : Int
  story_url : Option String
  segment : Option String
  source : Option String
deriving DecidableEq, Repr

/-- One row of the traffic fact table
(`GA4_ARC_author_productivity_daily` / `GA4_productivity_cleaned`). -/
structure TrafficRow where
  article_url : String
  date : Int
  visits : Int
  pageviews : Int
  total_time_seconds : Int
  scrolls : Int
  daily_users : Int
deriving DecidableEq, Repr

/-- `action_type = 'CREATE'`. -/
def isCreate (e : Event) : Bool := e.action_type == "CREATE"

/-- `action_type = 'SAVE'`. -/
def isSave (e : Event) : Bool := e.action_type == "SAVE"

/-- `action_type = 'FIRST_PUBLISH'`. -/
def isPublish (e : Event) : Bool := e.action_type == "FIRST_PUBLISH"

/-- `DATE(event_timestamp) BETWEEN start_date AND end_date`. -/
def inWin (s t d : Int) : Bool := decide (s ≤ d) && decide (d ≤ t)

/-- The rank-1 row of
`ROW_NUMBER() OVER (PARTITION BY note_id ORDER BY event_timestamp)`
restricted to `action_type = 'SAVE'` rows of the given (already
row-filtered) table: the SAVE event for note `n` with minimal
timestamp, first in list order on ties. -/
def primerSaveRank1 (l : List Event) (n : Nat) : Option Event :=
  (l.filter (fun e => isSave e && e.note_id == n)).foldl
    (fun acc e =>
      match acc with
      | none => some e
      | some b => if e.ts < b.ts then some e else some b) none

/-- CTE `notas_con_create`: notes with a CREATE event anywhere in the
full log (no date filter in the SQL). -/
def notasConCreate (log : List Event) (n : Nat) : Bool :=
  log.any (fun e => isCreate e && e.note_id == n)

/-- The rows of the log whose event date falls in the window
(the `DATE(event_timestamp) BETWEEN ...` filter of the window-scoped
CTEs). -/
def winFilter (log : List Event) (s t : Int) : List Event :=
  log.filter (fun e => inWin s t e.day)

/-- The rows of the log whose event date falls in the window and whose
`story_url` is not NULL (the filter used by the URL-joined variants of
the user-notes CTEs, e.g. in `load_traffic_metrics`). -/
def winUrlFilter (log : List Event) (s t : Int) : List Event :=
  log.filter (fun e => inWin s t e.day && e.story_url.isSome)

/-- CTE `todas_notas_usuario` (identifier variant, as inlined in
`load_production_metrics`, `load_top_publishers`, `load_top_creators`,
`load_daily_evolution` (metric `notas`), `load_section_stats`,
`load_source_efficiency`, `load_top_articles`,
`load_author_productivity`): note `n` belongs to user `p` in window
`[s,t]` iff `p` has a CREATE event for `n` in the window, or a
FIRST_PUBLISH event for `n` in the window, or the rank-1 window SAVE
for `n` is by `p` and `n` has no CREATE event anywhere in the log. -/
def todasNotasUsuario (log : List Event) (p : String) (s t : Int) (n : Nat) : Bool :=
  (log.any fun e =>
    e.email_editor == some p && isCreate e && inWin s t e.day && e.note_id == n) ||
  (log.any fun e =>
    e.email_editor == some p && isPublish e && inWin s t e.day && e.note_id == n) ||
  (match primerSaveRank1 (winFilter log s t) n with
   | some e => e.email_editor == some p && !(notasConCreate log n)
   | none => false)

/-- CTE `todas_notas_usuario` (URL-joined variant, as inlined in
`load_traffic_metrics`, `load_daily_evolution` (metrics `users` and
traffic), `load_geo_data`): same three tiers, but each tier's source
rows additionally require `story_url IS NOT NULL`, including the
`primer_save` ranking input. -/
def todasNotasUsuarioUrl (log : List Event) (p : String) (s t : Int) (n : Nat) : Bool :=
  (log.any fun e =>
    e.email_editor == some p && isCreate e && inWin s t e.day && e.note_id == n
      && e.story_url.isSome) ||
  (log.any fun e =>
    e.email_editor == some p && isPublish e && inWin s t e.day && e.note_id == n
      && e.story_url.isSome) ||
  (match primerSaveRank1 (winUrlFilter log s t) n with
   | some e => e.email_editor == some p && !(notasConCreate log n)
   | none => false)

/-- CTE `notas_publicadas` / `notas_publicadas_periodo`: notes with a
FIRST_PUBLISH event whose date falls in the window. -/
def notasPublicadasPeriodo (log : List Event) (s t : Int) (n : Nat) : Bool :=
  log.any fun e => isPublish e && inWin s t e.day && e.note_id == n

/-- The distinct note ids appearing in the log (the universe over which
the SQL `SELECT DISTINCT note_id` queries range). -/
def notesOf (log : List Event) : List Nat := (log.map (·.note_id)).dedup

/-- The user's scope as a list of distinct note ids. -/
def scopeList (log : List Event) (p : String) (s t : Int) : List Nat :=
  (notesOf log).filter (todasNotasUsuario log p s t)

/-- The published subset of the scope: scoped notes that have a
FIRST_PUBLISH event in the window (CTE `notas_usuario_publicadas`). -/
def publishedScopeList (log : List Event) (p : String) (s t : Int) : List Nat :=
  (scopeList log p s t).filter (notasPublicadasPeriodo log s t)

/-- `load_production_metrics` `query_notas`:
`COUNT(DISTINCT t.note_id) FROM todas_notas_usuario t INNER JOIN
notas_publicadas p ON t.note_id = p.note_id`. -/
def notasPublicadasUsuario (log : List Event) (p : String) (s t : Int) : Nat :=
  ((notesOf log).filter (fun n =>
    todasNotasUsuario log p s t n && notasPublicadasPeriodo log s t n)).length

/-- CTE `creadores_reales` restricted to one note (from
`load_production_metrics`, `load_top_creators`, `load_top_articles`):
the `creador_email`s of all CREATE events for the note — with **no**
date filter — and, only when the note has no CREATE event anywhere,
the editor of the rank-1 SAVE over the **full** log (CTE
`primer_save_all`, also unfiltered by date). -/
def creadoresReales (log : List Event) (n : Nat) : List (Option String) :=
  let cs := (log.filter (fun e => isCreate e && e.note_id == n)).map (·.email_editor)
  if cs.isEmpty then
    match primerSaveRank1 log n with
    | some e => [e.email_editor]
    | none => []
  else cs

/-- CTE `creadores_notas` in `load_production_metrics`:
`SELECT DISTINCT cr.creador_email FROM creadores_reales cr WHERE
cr.note_id IN todas_notas_usuario`. -/
def creadoresNotas (log : List Event) (p : String) (s t : Int) : List (Option String) :=
  ((scopeList log p s t).flatMap (fun n => creadoresReales log n)).dedup

/-- `total_creadores` in `load_production_metrics` (person filter
active): `SELECT COUNT(*) FROM creadores_notas`. -/
def creadoresCount (log : List Event) (p : String) (s t : Int) : Nat :=
  (creadoresNotas log p s t).length

/-- CTE `publicadores_notas` in `load_production_metrics`:
`SELECT DISTINCT e.email_editor FROM arc_editorial_activity e WHERE
e.action_type = 'FIRST_PUBLISH' AND DATE(...) BETWEEN ... AND
e.note_id IN todas_notas_usuario`. -/
def publicadoresNotas (log : List Event) (p : String) (s t : Int) : List (Option String) :=
  ((log.filter (fun e =>
    isPublish e && inWin s t e.day && todasNotasUsuario log p s t e.note_id)).map
      (·.email_editor)).dedup

/-- `total_publicadores` in `load_production_metrics` (person filter
active). -/
def publicadoresCount (log : List Event) (p : String) (s t : Int) : Nat :=
  (publicadoresNotas log p s t).length

/-- CTE `todas_notas_usuario` as `(note_id, story_url)` pairs in the
URL-joined variant (e.g. `load_traffic_metrics`): the pairs coming from
the user's windowed CREATE events, windowed FIRST_PUBLISH events, and
the windowed URL-filtered rank-1 SAVE when the note has no CREATE
anywhere. -/
def scopePairs (log : List Event) (p : String) (s t : Int) : List (Nat × String) :=
  (((log.filter (fun e =>
      e.email_editor == some p && isCreate e && inWin s t e.day && e.story_url.isSome)).filterMap
      (fun e => e.story_url.map (fun u => (e.note_id, u))))
  ++ ((log.filter (fun e =>
      e.email_editor == some p && isPublish e && inWin s t e.day && e.story_url.isSome)).filterMap
      (fun e => e.story_url.map (fun u => (e.note_id, u))))
  ++ ((notesOf log).filterMap (fun n =>
      match primerSaveRank1 (winUrlFilter log s t) n with
      | some e =>
        if e.email_editor == some p && !(notasConCreate log n) then
          e.story_url.map (fun u => (n, u))
        else none
      | none => none))).dedup

/-- CTE `urls_del_usuario` in `load_traffic_metrics`:
`SELECT DISTINCT t.story_url FROM todas_notas_usuario t INNER JOIN
notas_publicadas p ON t.note_id = p.note_id`. -/
def urlsDelUsuario (log : List Event) (p : String) (s t : Int) : List String :=
  (((scopePairs log p s t).filter (fun pr =>
    notasPublicadasPeriodo log s t pr.1)).map (·.2)).dedup

/-- A traffic aggregate of `load_traffic_metrics` under a person
filter: `SUM(g.f)` over the traffic table restricted to
`g.date BETWEEN start AND end AND g.article_url IN urls_del_usuario`.
Instantiating `f` with `visits`, `pageviews`, `total_time_seconds`,
`scrolls` or `daily_users` gives each reported traffic field. -/
def trafficSum (f : TrafficRow → Int) (traffic : List TrafficRow)
    (log : List Event) (p : String) (s t : Int) : Int :=
  ((traffic.filter (fun g =>
    inWin s t g.date && (urlsDelUsuario log p s t).contains g.article_url)).map f).sum

/-- `visitas_totales` of `load_traffic_metrics` under a person filter. -/
def visitasTotales (traffic : List TrafficRow) (log : List Event)
    (p : String) (s t : Int) : Int :=
  trafficSum (·.visits) traffic log p s t

/-- `productividad` in `load_kpis`:
`visitas / max(notas, 1)` where `notas` is the production metric
`notas_publicadas` and `visitas` the traffic metric `visitas_totales`
(person-filtered path). -/
def kpisProductividad (log : List Event) (traffic : List TrafficRow)
    (p : String) (s t : Int) : ℚ :=
  (visitasTotales traffic log p s t : ℚ) /
    ((max (notasPublicadasUsuario log p s t) 1 : ℕ) : ℚ)

/-- `period_days` in `load_previous_kpis`: `(end_dt - start_dt).days + 1`. -/
def periodDays (s t : Int) : Int := t - s + 1

/-- The previous window computed by `load_previous_kpis`:
`prev_end = start - 1 day`, `prev_start = prev_end - (period_days - 1)`. -/
def prevWindow (s t : Int) : Int × Int :=
  (s - 1 - (periodDays s t - 1), s - 1)

/-- `load_previous_kpis`: the same KPI aggregation run on the previous
window with the same filters (shown here for `productividad`). -/
def prevKpisProductividad (log : List Event) (traffic : List TrafficRow)
    (p : String) (s t : Int) : ℚ :=
  kpisProductividad log traffic p (prevWindow s t).1 (prevWindow s t).2

/-- `calculate_delta(current, previous)`: `(0, "neutral")` when
`previous == 0 or pd.isna(previous)` (absence modelled as `none`);
otherwise `((current - previous) / previous * 100, direction)` with
direction `"positive"` iff the delta is `>= 0`. -/
def calculateDelta (current : ℚ) (previous : Option ℚ) : ℚ × String :=
  match previous with
  | none => (0, "neutral")
  | some p =>
    if p = 0 then (0, "neutral")
    else
      let delta := (current - p) / p * 100
      (delta, if 0 ≤ delta then "positive" else "negative")

/-- ASCII lower-casing of a character code: the effect of SQL `LOWER`
on the ASCII identifiers this system matches against. -/
def lowCode (n : Nat) : Nat := if 65 ≤ n && n ≤ 90 then n + 32 else n

/-- The lower-cased character codes of a string (`LOWER(s)`). -/
def strCodes (s : String) : List Nat := s.data.map (fun c => lowCode c.toNat)

/-- Code-list equality of a leading segment, used to define SQL
`LIKE '%needle%'` containment. -/
def chPre : List Nat → List Nat → Bool
  | [], _ => true
  | _ :: _, [] => false
  | a :: as, b :: bs => a == b && chPre as bs

/-- `nd` occurs as a contiguous run inside the second list: the
semantics of SQL `LIKE '%nd%'` on character data. -/
def chSub (nd : List Nat) : List Nat → Bool
  | [] => nd.isEmpty
  | b :: bs => chPre nd (b :: bs) || chSub nd bs

/-- `LOWER(source) LIKE '%needle%'`: `NULL` source never matches (in
SQL the predicate evaluates to `NULL`, which is not true; the
`COALESCE(source,'')` variant in `load_source_efficiency` also fails to
match a non-empty needle on `NULL`). -/
def srcHas (e : Event) (needle : String) : Bool :=
  match e.source with
  | none => false
  | some src => chSub (strCodes needle) (strCodes src)

/-- The row filter shared by the `editorial_stats` CTE of
`load_section_stats`: FIRST_PUBLISH in the window with this non-empty
segment. -/
def pubWinSeg (s t : Int) (seg : String) (e : Event) : Bool :=
  isPublish e && inWin s t e.day && e.segment == some seg && seg != ""

/-- Note `n` contributes to `COUNT(DISTINCT ed.note_id)` (`notas`) of
section `seg` in `load_section_stats`. -/
def noteNotas (log : List Event) (s t : Int) (seg : String) (n : Nat) : Bool :=
  log.any fun e => pubWinSeg s t seg e && e.note_id == n

/-- Note `n` contributes to
`COUNT(DISTINCT CASE WHEN LOWER(ed.source) LIKE '%needle%' THEN
ed.note_id END)` of section `seg` in `load_section_stats`. -/
def noteBucket (log : List Event) (s t : Int) (seg : String) (needle : String)
    (n : Nat) : Bool :=
  log.any fun e => pubWinSeg s t seg e && e.note_id == n && srcHas e needle

/-- `notas` of section `seg` in `load_section_stats`. -/
def sectionNotasCount (log : List Event) (s t : Int) (seg : String) : Nat :=
  ((notesOf log).filter (noteNotas log s t seg)).length

/-- `composer` of section `seg` in `load_section_stats`. -/
def composerCount (log : List Event) (s t : Int) (seg : String) : Nat :=
  ((notesOf log).filter (noteBucket log s t seg "composer")).length

/-- `scribnews` of section `seg` in `load_section_stats`. -/
def scribnewsCount (log : List Event) (s t : Int) (seg : String) : Nat :=
  ((notesOf log).filter (noteBucket log s t seg "scribnews")).length

/-- The `fuente` CASE chain of `load_source_efficiency`:
`WHEN LOWER(email_editor) = 'infobae' THEN 'Agencias'
 WHEN LOWER(COALESCE(source,'')) LIKE '%scribnews%' THEN 'Scribnews'
 WHEN LOWER(COALESCE(source,'')) LIKE '%composer%' THEN 'Composer'
 ELSE 'Otros'`. -/
def fuenteOf (e : Event) : String :=
  if e.email_editor.map strCodes == some (strCodes "infobae") then "Agencias"
  else if srcHas e "scribnews" then "Scribnews"
  else if srcHas e "composer" then "Composer"
  else "Otros"

/-- The per-source note filter of `load_source_efficiency` under a
person filter: FIRST_PUBLISH events in the window restricted to
`note_id IN notas_usuario_publicadas` (the published subset of the
scope). -/
def sourceEffEvents (log : List Event) (p : String) (s t : Int) : List Event :=
  log.filter (fun e =>
    isPublish e && inWin s t e.day && todasNotasUsuario log p s t e.note_id
      && notasPublicadasPeriodo log s t e.note_id)

/-- The rows feeding the unscoped top-publishers leaderboard
(`load_top_publishers`, no person filter): FIRST_PUBLISH events in the
window with `email_editor IS NOT NULL AND email_editor != ''`. -/
def topPublishersEvents (log : List Event) (s t : Int) : List Event :=
  log.filter (fun e =>
    isPublish e && inWin s t e.day && e.email_editor != none
      && e.email_editor != some "")

end Infobae

namespace Infobae

/-- Sanity check of the rank-1 modelling: the SAVE with the smaller
timestamp wins regardless of list order. -/
example : primerSaveRank1 [⟨1, some "a", "SAVE", 5, 0, none, none, none⟩,
    ⟨1, some "b", "SAVE", 3, 0, none, none, none⟩] 1 =
    some ⟨1, some "b", "SAVE", 3, 0, none, none, none⟩ := by decide

/-- Sanity check of the section bucketing on the spec's own example
sources. -/
example : srcHas ⟨1, none, "FIRST_PUBLISH", 0, 0, none, some "P", some "ComposerCMS"⟩
    "composer" = true := by decide

/-! ### Shared helper lemmas -/

/-- `List.any` only depends on the values of the predicate on the list. -/
theorem anyCongrOn {α : Type} {l : List α} {f g : α → Bool}
    (h : ∀ e ∈ l, f e = g e) : l.any f = l.any g := by
  induction l with
  | nil => rfl
  | cons a l ih =>
    simp only [List.any_cons]
    rw [h a (by simp), ih (fun e he => h e (by simp [he]))]

/-- The CREATE-event rows of `creadores_reales` for a note, as used in
the `cs` branch of `creadoresReales`. -/
def createEmails (log : List Event) (n : Nat) : List (Option String) :=
  (log.filter (fun e => isCreate e && e.note_id == n)).map (·.email_editor)

/-- `creadoresReales` unfolded through `createEmails`. -/
theorem creadoresReales_def (log : List Event) (n : Nat) :
    creadoresReales log n =
      if (createEmails log n).isEmpty then
        match primerSaveRank1 log n with
        | some e => [e.email_editor]
        | none => []
      else createEmails log n := rfl

/-- When the note has a CREATE event somewhere, `createEmails` is
non-empty. -/
theorem createEmails_ne_nil (log : List Event) (n : Nat)
    (h : notasConCreate log n = true) : (createEmails log n).isEmpty = false := by
  obtain ⟨e, he, hp⟩ := List.any_eq_true.mp h
  have hm : e.email_editor ∈ createEmails log n :=
    List.mem_map_of_mem _ (List.mem_filter.mpr ⟨he, hp⟩)
  cases hl : createEmails log n with
  | nil => rw [hl] at hm; exact absurd hm (List.not_mem_nil _)
  | cons a l => rfl

/-- When the note has no CREATE event anywhere, `createEmails` is
empty. -/
theorem createEmails_eq_nil (log : List Event) (n : Nat)
    (h : notasConCreate log n = false) : createEmails log n = [] := by
  unfold createEmails
  rw [List.map_eq_nil_iff, List.filter_eq_nil_iff]
  intro e he hp
  have : notasConCreate log n = true := List.any_eq_true.mpr ⟨e, he, hp⟩
  rw [this] at h
  exact absurd h (by simp)

/-- `creadores_reales` on a note with no CREATE anywhere reduces to the
rank-1 SAVE of the full log. -/
theorem creadoresReales_of_no_create (log : List Event) (n : Nat)
    (h : notasConCreate log n = false) :
    creadoresReales log n = ((primerSaveRank1 log n).map (·.email_editor)).toList := by
  rw [creadoresReales_def, createEmails_eq_nil log n h]
  cases hps : primerSaveRank1 log n <;> simp

/-- `creadores_reales` on a note with a CREATE event somewhere is the
list of editors of all its CREATE events, with no date filter. -/
theorem creadoresReales_of_create (log : List Event) (n : Nat)
    (h : notasConCreate log n = true) :
    creadoresReales log n = createEmails log n := by
  rw [creadoresReales_def, createEmails_ne_nil log n h]
  simp

/-- Membership in `createEmails` is existence of a CREATE event with
that editor anywhere in the log. -/
theorem mem_createEmails (log : List Event) (n : Nat) (em : Option String) :
    em ∈ createEmails log n ↔
      ∃ e ∈ log, isCreate e = true ∧ e.note_id = n ∧ e.email_editor = em := by
  unfold createEmails
  simp only [List.mem_map, List.mem_filter, Bool.and_eq_true, beq_iff_eq]
  constructor
  · rintro ⟨e, ⟨he, hc, hn⟩, rfl⟩
    exact ⟨e, he, hc, hn, rfl⟩
  · rintro ⟨e, he, hc, hn, rfl⟩
    exact ⟨e, ⟨he, hc, hn⟩, rfl⟩

/-! ### C1 — creator attribution -/

/-- Log for the C1 counterexample: note 1 has a CREATE by `a` on day 0
and a CREATE by `b` on day 10. -/
def exLogC1 : List Event :=
  [⟨1, some "a", "CREATE", 0, 0, none, none, none⟩,
   ⟨1, some "b", "CREATE", 10, 10, none, none, none⟩]

/-- C1 counterexample: in the window `[0,0]` the editors of note 1's
CREATE events in the window are exactly `[a]`, yet the engine's
`creadores_reales` attributes `{a, b}` — the CREATE selection is not
window-scoped, refuting the claim at this input. -/
theorem c1_creator_window_counterexample :
    creadoresReales exLogC1 1 = [some "a", some "b"]
    ∧ ((winFilter exLogC1 0 0).filter
        (fun e => isCreate e && e.note_id == 1)).map (·.email_editor) = [some "a"] := by
  decide

/-- C1 (amended): creator attribution ignores the window entirely.
If note `n` has a CREATE event anywhere in the log, its creator set is
the editors of **all** its CREATE events (window-unrestricted) and the
fallback does not apply; if it has none, its creator is the editor of
the rank-1 SAVE over the **full** log (`primer_save_all` carries no
date filter), and there is no creator when the note has no SAVE at
all. -/
theorem c1_creator_attribution_global (log : List Event) (n : Nat) :
    (notasConCreate log n = true →
      ∀ em, em ∈ creadoresReales log n ↔
        ∃ e ∈ log, isCreate e = true ∧ e.note_id = n ∧ e.email_editor = em)
    ∧ (notasConCreate log n = false →
      creadoresReales log n = ((primerSaveRank1 log n).map (·.email_editor)).toList) := by
  constructor
  · intro h em
    rw [creadoresReales_of_create log n h]
    exact mem_createEmails log n em
  · exact creadoresReales_of_no_create log n

/-- Log for the C1 witness: a single SAVE by `c` and no CREATE. -/
def exLogC1w : List Event := [⟨1, some "c", "SAVE", 5, 0, none, none, none⟩]

/-- C1 witness: the amended theorem applied at a concrete log. -/
theorem c1_creator_attribution_global_witness :
    creadoresReales exLogC1w 1
      = ((primerSaveRank1 exLogC1w 1).map (·.email_editor)).toList :=
  (c1_creator_attribution_global exLogC1w 1).2 (by decide)

/-! ### C7 — previous window -/

/-- C7: the comparison window computed by `load_previous_kpis` has the
same inclusive day count, ends the day before the current start (no
gap, no overlap), specialises to `[D-7, D-1]` for `W = [D, D+6]`, and
the previous KPIs are the same aggregation run at the shifted window. -/
theorem c7_previous_window_aligned (s t D : Int) :
    periodDays (prevWindow s t).1 (prevWindow s t).2 = periodDays s t
    ∧ (prevWindow s t).2 + 1 = s
    ∧ (prevWindow s t).2 < s
    ∧ prevWindow D (D + 6) = (D - 7, D - 1)
    ∧ (∀ (log : List Event) (traffic : List TrafficRow) (p : String),
        prevKpisProductividad log traffic p s t
          = kpisProductividad log traffic p (prevWindow s t).1 (prevWindow s t).2) := by
  refine ⟨?_, ?_, ?_, ?_, fun _ _ _ => rfl⟩
  · simp only [prevWindow, periodDays]; omega
  · simp only [prevWindow]; omega
  · simp only [prevWindow]; omega
  · simp only [prevWindow, periodDays]
    rw [Prod.mk.injEq]
    refine ⟨by omega, rfl⟩

/-! ### C8 — delta formula and zero guard -/

/-- C8: `calculate_delta` returns `(current - previous)/previous * 100`
when `previous` is nonzero and present, and `(0, "neutral")` when
`previous` is `0` or absent — no error, no undefined value. -/
theorem c8_delta_formula_and_zero_guard (c p : ℚ) :
    (p ≠ 0 → (calculateDelta c (some p)).1 = (c - p) / p * 100)
    ∧ calculateDelta c (some 0) = (0, "neutral")
    ∧ calculateDelta c none = (0, "neutral") := by
  refine ⟨fun hp => ?_, ?_, rfl⟩
  · simp [calculateDelta, hp]
  · simp [calculateDelta]

/-- C8 witness: the formula branch at `(150, 100)`. -/
theorem c8_delta_formula_witness :
    (calculateDelta 150 (some 100)).1 = (150 - 100) / 100 * 100 :=
  (c8_delta_formula_and_zero_guard 150 100).1 (by norm_num)

/-! ### C9 — productivity zero guard -/

/-- C9: `productividad` in `load_kpis` is sessions divided by the
denominator `max(notas, 1)`, so with zero published notes it equals the
session total — never a division by zero. -/
theorem c9_productivity_zero_guard (log : List Event) (traffic : List TrafficRow)
    (p : String) (s t : Int) :
    kpisProductividad log traffic p s t
      = (visitasTotales traffic log p s t : ℚ)
        / ((max (notasPublicadasUsuario log p s t) 1 : ℕ) : ℚ)
    ∧ (notasPublicadasUsuario log p s t = 0 →
        kpisProductividad log traffic p s t = (visitasTotales traffic log p s t : ℚ)) := by
  refine ⟨rfl, fun h => ?_⟩
  simp [kpisProductividad, h]

/-- C9 witness: on the empty stores zero notes are published and the
productivity equals the (zero) session total. -/
theorem c9_productivity_zero_guard_witness :
    kpisProductividad [] [] "p" 0 0 = ((visitasTotales [] [] "p" 0 0 : Int) : ℚ) :=
  (c9_productivity_zero_guard [] [] "p" 0 0).2 rfl

/-! ### C10 — delta direction -/

/-- C10 counterexample: at `(current, previous) = (0, -1)` the previous
value is nonzero and `current ≥ previous`, yet `calculate_delta`
reports direction `"negative"` (the code tests the sign of the
quotient, which flips for negative `previous`). -/
theorem c10_direction_counterexample :
    (-1 : ℚ) ≠ 0 ∧ (-1 : ℚ) ≤ 0
    ∧ (calculateDelta 0 (some (-1))).2 = "negative" := by
  norm_num [calculateDelta]

/-- C10 (amended): for present nonzero `previous` the direction is
never `"neutral"`; for `previous > 0` it is `"positive"` iff
`current ≥ previous` (in particular `"positive"` with delta `0` at the
boundary `current = previous`); for `previous < 0` the comparison is
reversed (`"positive"` iff `current ≤ previous`). -/
theorem c10_direction_sign (c p : ℚ) (hp : p ≠ 0) :
    (calculateDelta c (some p)).2 ≠ "neutral"
    ∧ (0 < p → ((calculateDelta c (some p)).2 = "positive" ↔ p ≤ c))
    ∧ (p < 0 → ((calculateDelta c (some p)).2 = "positive" ↔ c ≤ p))
    ∧ (calculateDelta p (some p)).2 = "positive" := by
  have key : calculateDelta c (some p)
      = ((c - p) / p * 100,
          if 0 ≤ (c - p) / p * 100 then "positive" else "negative") := by
    simp [calculateDelta, hp]
  refine ⟨?_, fun hp2 => ?_, fun hp2 => ?_, ?_⟩
  · rw [key]
    show (if 0 ≤ (c - p) / p * 100 then "positive" else "negative") ≠ "neutral"
    by_cases hd : 0 ≤ (c - p) / p * 100
    · rw [if_pos hd]; decide
    · rw [if_neg hd]; decide
  · have hiff : (0 ≤ (c - p) / p * 100) ↔ (p ≤ c) := by
      rw [div_mul_eq_mul_div, le_div_iff₀ hp2, zero_mul,
        mul_nonneg_iff_of_pos_right (by norm_num : (0:ℚ) < 100)]
      exact sub_nonneg
    rw [key]
    show ((if 0 ≤ (c - p) / p * 100 then "positive" else "negative") = "positive") ↔ p ≤ c
    rw [← hiff]
    by_cases hd : 0 ≤ (c - p) / p * 100
    · rw [if_pos hd]
      exact ⟨fun _ => hd, fun _ => rfl⟩
    · rw [if_neg hd]
      exact ⟨fun hcontra => absurd hcontra (by decide), fun hcontra => absurd hcontra hd⟩
  · have hiff : (0 ≤ (c - p) / p * 100) ↔ (c ≤ p) := by
      rw [div_mul_eq_mul_div, le_div_iff_of_neg hp2, zero_mul]
      constructor
      · intro h; nlinarith
      · intro h; nlinarith
    rw [key]
    show ((if 0 ≤ (c - p) / p * 100 then "positive" else "negative") = "positive") ↔ c ≤ p
    rw [← hiff]
    by_cases hd : 0 ≤ (c - p) / p * 100
    · rw [if_pos hd]
      exact ⟨fun _ => hd, fun _ => rfl⟩
    · rw [if_neg hd]
      exact ⟨fun hcontra => absurd hcontra (by decide), fun hcontra => absurd hcontra hd⟩
  · simp [calculateDelta, hp]

/-- C10 witness: at `(3, 2)` the direction is `"positive"`. -/
theorem c10_direction_sign_witness :
    (0 : ℚ) < 2 ∧ (calculateDelta 3 (some 2)).2 = "positive" :=
  ⟨by norm_num,
    ((c10_direction_sign 3 2 (by norm_num)).2.1 (by norm_num)).mpr (by norm_num)⟩

/-! ### C2 — one scope for all builders -/

/-- Log for the C2 counterexample: a single SAVE by `p` whose
`story_url` is NULL. -/
def exLogC2 : List Event := [⟨1, some "p", "SAVE", 0, 0, none, none, none⟩]

/-- C2 counterexample: on `exLogC2` the id-variant scope (used by
`load_production_metrics` and the other editorial builders) contains
note 1, but the URL-joined variant (used by `load_traffic_metrics`)
does not — two builders derive different user-note sets from the same
inputs. -/
theorem c2_scope_counterexample :
    todasNotasUsuario exLogC2 "p" 0 0 1 = true
    ∧ todasNotasUsuarioUrl exLogC2 "p" 0 0 1 = false := by decide

/-- C2 (amended): every builder derives the user-note set by the same
three-tier union, but the URL-joined builders first drop events with
NULL `story_url` (including from the first-SAVE ranking input), so
their note set can differ; when every event carries a `story_url` the
two variants agree on every note. -/
theorem c2_scope_variants_agree (log : List Event) (p : String) (s t : Int) (n : Nat)
    (h : ∀ e ∈ log, e.story_url.isSome = true) :
    todasNotasUsuarioUrl log p s t n = todasNotasUsuario log p s t n := by
  have hfil : winUrlFilter log s t = winFilter log s t := by
    unfold winUrlFilter winFilter
    exact List.filter_congr (fun e he => by simp [h e he])
  have h1 : (log.any fun e =>
        e.email_editor == some p && isCreate e && inWin s t e.day && e.note_id == n
          && e.story_url.isSome)
      = (log.any fun e =>
        e.email_editor == some p && isCreate e && inWin s t e.day && e.note_id == n) :=
    anyCongrOn (fun e he => by rw [h e he]; simp)
  have h2 : (log.any fun e =>
        e.email_editor == some p && isPublish e && inWin s t e.day && e.note_id == n
          && e.story_url.isSome)
      = (log.any fun e =>
        e.email_editor == some p && isPublish e && inWin s t e.day && e.note_id == n) :=
    anyCongrOn (fun e he => by rw [h e he]; simp)
  unfold todasNotasUsuarioUrl todasNotasUsuario
  rw [hfil, h1, h2]

/-- Log for the C2 witness: the same single SAVE but with a URL. -/
def exLogC2w : List Event := [⟨1, some "p", "SAVE", 0, 0, some "u", none, none⟩]

/-- C2 witness: on a log whose events all carry URLs, the two scope
variants coincide. -/
theorem c2_scope_variants_agree_witness :
    todasNotasUsuarioUrl exLogC2w "p" 0 0 1 = todasNotasUsuario exLogC2w "p" 0 0 1 :=
  c2_scope_variants_agree exLogC2w "p" 0 0 1 (by decide)

/-! ### C3 — creators/publishers counts under a person filter -/

/-- Log for the C3 counterexample: `p` creates note 1 in the window but
the note is never published. -/
def exLogC3 : List Event := [⟨1, some "p", "CREATE", 0, 0, none, none, none⟩]

/-- C3 counterexample: the published subset of `p`'s scope is empty,
yet `total_creadores` reports 1 — the creators count is taken over the
whole scope, not over its published subset. -/
theorem c3_counts_counterexample :
    creadoresCount exLogC3 "p" 0 0 = 1
    ∧ publishedScopeList exLogC3 "p" 0 0 = [] := by decide

/-- C3 (amended): with a person filter, `publicadores_notas` holds
exactly the editors of windowed FIRST_PUBLISH events on scoped notes
(all of which lie in the published subset), while `creadores_notas`
holds the creator attributions of **all** scoped notes, published or
not; neither is constantly the filter person. -/
theorem c3_counts_scope_semantics (log : List Event) (p : String) (s t : Int) :
    (∀ em, em ∈ publicadoresNotas log p s t ↔
      ∃ e ∈ log, isPublish e = true ∧ inWin s t e.day = true
        ∧ todasNotasUsuario log p s t e.note_id = true
        ∧ notasPublicadasPeriodo log s t e.note_id = true
        ∧ e.email_editor = em)
    ∧ (∀ em, em ∈ creadoresNotas log p s t ↔
      ∃ n, n ∈ notesOf log ∧ todasNotasUsuario log p s t n = true
        ∧ em ∈ creadoresReales log n) := by
  constructor
  · intro em
    unfold publicadoresNotas
    rw [List.mem_dedup]
    simp only [List.mem_map, List.mem_filter, Bool.and_eq_true]
    constructor
    · rintro ⟨e, ⟨he, ⟨⟨hpub, hwin⟩, hscope⟩⟩, rfl⟩
      refine ⟨e, he, hpub, hwin, hscope, ?_, rfl⟩
      exact List.any_eq_true.mpr ⟨e, he, by simp [hpub, hwin]⟩
    · rintro ⟨e, he, hpub, hwin, hscope, hpubnote, rfl⟩
      exact ⟨e, ⟨he, ⟨⟨hpub, hwin⟩, hscope⟩⟩, rfl⟩
  · intro em
    unfold creadoresNotas
    rw [List.mem_dedup, List.mem_flatMap]
    simp only [scopeList, List.mem_filter]
    constructor
    · rintro ⟨n, ⟨hn, hsc⟩, hm⟩
      exact ⟨n, hn, hsc, hm⟩
    · rintro ⟨n, hn, hsc, hm⟩
      exact ⟨n, ⟨hn, hsc⟩, hm⟩

/-! ### C4 — published subset invariants -/

/-- C4: the published subset is contained in the scope; the
`notas_publicadas` count counts exactly the published subset; every
scope pair projects into the URL-variant scope; every URL fed to the
traffic sums comes from a published scoped note; and a traffic row
whose URL is outside `urls_del_usuario` contributes nothing to any
traffic aggregate. -/
theorem c4_published_subset_invariants (log : List Event) (traffic : List TrafficRow)
    (p : String) (s t : Int) :
    (∀ n ∈ publishedScopeList log p s t, n ∈ scopeList log p s t)
    ∧ notasPublicadasUsuario log p s t = (publishedScopeList log p s t).length
    ∧ (∀ pr ∈ scopePairs log p s t, todasNotasUsuarioUrl log p s t pr.1 = true)
    ∧ (∀ u ∈ urlsDelUsuario log p s t, ∃ n,
        (n, u) ∈ scopePairs log p s t ∧ notasPublicadasPeriodo log s t n = true)
    ∧ (∀ e ∈ sourceEffEvents log p s t,
        todasNotasUsuario log p s t e.note_id = true
        ∧ notasPublicadasPeriodo log s t e.note_id = true)
    ∧ (∀ (g : TrafficRow) (f : TrafficRow → Int),
        (urlsDelUsuario log p s t).contains g.article_url = false →
        trafficSum f (g :: traffic) log p s t = trafficSum f traffic log p s t) := by
  refine ⟨fun n hn => List.mem_of_mem_filter hn, ?_, ?_, ?_, ?_, ?_⟩
  · unfold notasPublicadasUsuario publishedScopeList scopeList
    rw [List.filter_filter]
    congr 1
    apply List.filter_congr
    intro n hn
    exact Bool.and_comm _ _
  · intro pr hpr
    unfold scopePairs at hpr
    rw [List.mem_dedup, List.mem_append, List.mem_append] at hpr
    rcases hpr with (hA | hB) | hC
    · rw [List.mem_filterMap] at hA
      obtain ⟨e, hef, hmap⟩ := hA
      rw [List.mem_filter] at hef
      obtain ⟨he, hcond⟩ := hef
      cases hurl : e.story_url with
      | none => rw [hurl] at hmap; exact absurd hmap (by simp)
      | some u =>
        rw [hurl] at hmap
        simp only [Option.map_some', Option.some.injEq] at hmap
        subst hmap
        simp only [Bool.and_eq_true] at hcond
        obtain ⟨⟨⟨hmail, hcre⟩, hwin⟩, hsome⟩ := hcond
        unfold todasNotasUsuarioUrl
        simp only [Bool.or_eq_true]
        exact Or.inl (Or.inl (List.any_eq_true.mpr ⟨e, he, by simp [hmail, hcre, hwin, hurl]⟩))
    · rw [List.mem_filterMap] at hB
      obtain ⟨e, hef, hmap⟩ := hB
      rw [List.mem_filter] at hef
      obtain ⟨he, hcond⟩ := hef
      cases hurl : e.story_url with
      | none => rw [hurl] at hmap; exact absurd hmap (by simp)
      | some u =>
        rw [hurl] at hmap
        simp only [Option.map_some', Option.some.injEq] at hmap
        subst hmap
        simp only [Bool.and_eq_true] at hcond
        obtain ⟨⟨⟨hmail, hpub⟩, hwin⟩, hsome⟩ := hcond
        unfold todasNotasUsuarioUrl
        simp only [Bool.or_eq_true]
        exact Or.inl (Or.inr (List.any_eq_true.mpr ⟨e, he, by simp [hmail, hpub, hwin, hurl]⟩))
    · rw [List.mem_filterMap] at hC
      obtain ⟨n, hn, hmap⟩ := hC
      cases hps : primerSaveRank1 (winUrlFilter log s t) n with
      | none => rw [hps] at hmap; exact absurd hmap (by simp)
      | some e =>
        rw [hps] at hmap
        have hmap2 : (if (e.email_editor == some p && !(notasConCreate log n)) = true
            then Option.map (fun u => (n, u)) e.story_url else none) = some pr := hmap
        by_cases hcond : (e.email_editor == some p && !(notasConCreate log n)) = true
        · rw [if_pos hcond] at hmap2
          cases hurl : e.story_url with
          | none => rw [hurl] at hmap2; exact absurd hmap2 (by simp)
          | some u =>
            rw [hurl] at hmap2
            simp only [Option.map_some', Option.some.injEq] at hmap2
            subst hmap2
            unfold todasNotasUsuarioUrl
            simp only [Bool.or_eq_true]
            refine Or.inr ?_
            rw [hps]
            exact hcond
        · rw [if_neg hcond] at hmap2
          exact absurd hmap2 (by simp)
  · intro u hu
    unfold urlsDelUsuario at hu
    rw [List.mem_dedup, List.mem_map] at hu
    obtain ⟨pr, hprf, hpr2⟩ := hu
    rw [List.mem_filter] at hprf
    obtain ⟨hpr, hpub⟩ := hprf
    refine ⟨pr.1, ?_, hpub⟩
    have heq : (pr.1, u) = pr := Prod.ext rfl hpr2.symm
    rw [heq]
    exact hpr
  · intro e he
    rw [sourceEffEvents, List.mem_filter] at he
    obtain ⟨-, hcond⟩ := he
    simp only [Bool.and_eq_true] at hcond
    exact ⟨hcond.1.2, hcond.2⟩
  · intro g f hg
    unfold trafficSum
    have hpred : (inWin s t g.date
        && (urlsDelUsuario log p s t).contains g.article_url) = false := by
      rw [hg, Bool.and_false]
    rw [List.filter_cons_of_neg (by rw [hpred]; exact Bool.false_ne_true)]

/-- Log for the C4 witness: `p` creates note 1 (with URL) and `q`
publishes it in the window. -/
def exLogC4 : List Event :=
  [⟨1, some "p", "CREATE", 0, 0, some "u", none, none⟩,
   ⟨1, some "q", "FIRST_PUBLISH", 1, 0, some "u", none, none⟩]

/-- A traffic row for an unrelated URL. -/
def exTrafficC4 : TrafficRow := ⟨"other", 0, 5, 5, 5, 5, 5⟩

/-- C4 witness: note 1 is in the scope via the published-subset
containment, and an out-of-scope traffic row contributes nothing. -/
theorem c4_published_subset_invariants_witness :
    (1 ∈ scopeList exLogC4 "p" 0 0)
    ∧ trafficSum (·.visits) [exTrafficC4] exLogC4 "p" 0 0
        = trafficSum (·.visits) [] exLogC4 "p" 0 0 :=
  ⟨(c4_published_subset_invariants exLogC4 [] "p" 0 0).1 1 (by decide),
   (c4_published_subset_invariants exLogC4 [] "p" 0 0).2.2.2.2.2 exTrafficC4
      (·.visits) (by decide)⟩

/-! ### C5 — empty-email events and attribution -/

/-- Log for the C5 counterexample: note 1 has no CREATE; its first SAVE
has an empty editor email, the second is by `alice`. -/
def exLogC5 : List Event :=
  [⟨1, some "", "SAVE", 1, 0, none, none, none⟩,
   ⟨1, some "alice", "SAVE", 2, 0, none, none, none⟩]

/-- C5 counterexample: the empty-email SAVE occupies rank 1, so the
engine attributes the empty string as creator and `alice` is not a
creator; removing empty-email events changes the attribution — it is
not invariant as the claim requires. -/
theorem c5_empty_email_counterexample :
    creadoresReales exLogC5 1 = [some ""]
    ∧ creadoresReales (exLogC5.filter
        (fun e => e.email_editor != some "" && e.email_editor != none)) 1
      = [some "alice"] := by decide

/-- C5 (amended): empty-email events do occupy ranks in the first-SAVE
ordering (the rank-1 SAVE is attributed whatever its editor email is);
the empty/NULL-email exclusion is applied only as a final row filter in
the leaderboard queries. -/
theorem c5_empty_email_semantics (log : List Event) (n : Nat) (s t : Int) (e : Event) :
    (notasConCreate log n = false → primerSaveRank1 log n = some e →
      creadoresReales log n = [e.email_editor])
    ∧ (∀ e2 ∈ topPublishersEvents log s t,
        e2.email_editor ≠ none ∧ e2.email_editor ≠ some "") := by
  constructor
  · intro hnc hps
    rw [creadoresReales_of_no_create log n hnc, hps]
    rfl
  · intro e2 he2
    rw [topPublishersEvents, List.mem_filter] at he2
    obtain ⟨-, hcond⟩ := he2
    simp only [Bool.and_eq_true, bne_iff_ne] at hcond
    exact ⟨hcond.1.2, hcond.2⟩

/-- C5 witness: the amended theorem applied to a log whose only SAVE
has an empty email — the empty email is attributed. -/
theorem c5_empty_email_semantics_witness :
    creadoresReales [⟨1, some "", "SAVE", 1, 0, none, none, none⟩] 1 = [some ""] :=
  (c5_empty_email_semantics [⟨1, some "", "SAVE", 1, 0, none, none, none⟩] 1 0 0
    ⟨1, some "", "SAVE", 1, 0, none, none, none⟩).1 (by decide) (by decide)

/-! ### C6 — section and source bucketing -/

/-- Log for the C6 counterexample: one published note whose source
contains both needles. -/
def exLogC6 : List Event :=
  [⟨1, some "x", "FIRST_PUBLISH", 0, 0, some "u", some "Politica",
    some "composerscribnews"⟩]

/-- C6 counterexample: a note whose source embeds both terms increments
**both** `composer` and `scribnews` buckets of `load_section_stats`
(the two counts are independent, not a first-match chain), and the
`load_source_efficiency` chain classifies the same source as
`Scribnews` — scribnews is tested before composer, not after. -/
theorem c6_bucket_counterexample :
    composerCount exLogC6 0 0 "Politica" = 1
    ∧ scribnewsCount exLogC6 0 0 "Politica" = 1
    ∧ sectionNotasCount exLogC6 0 0 "Politica" = 1
    ∧ fuenteOf ⟨1, some "x", "FIRST_PUBLISH", 0, 0, some "u", some "Politica",
        some "composerscribnews"⟩ = "Scribnews" := by decide

/-- C6 (amended): the section roll-up counts `composer` and
`scribnews` notes by two independent case-insensitive substring tests
(a NULL source matches neither but the note still counts in `notas`),
and the source-efficiency CASE chain tests agency first, then
scribnews, then composer. -/
theorem c6_bucket_semantics (log : List Event) (s t : Int) (seg : String) (n : Nat)
    (e : Event) :
    ((∀ e2 ∈ log, e2.note_id = n → e2.source = none) →
      noteBucket log s t seg "composer" n = false
      ∧ noteBucket log s t seg "scribnews" n = false)
    ∧ (noteBucket log s t seg "composer" n = true ↔
        ∃ e2 ∈ log, pubWinSeg s t seg e2 = true ∧ e2.note_id = n
          ∧ srcHas e2 "composer" = true)
    ∧ (noteBucket log s t seg "scribnews" n = true ↔
        ∃ e2 ∈ log, pubWinSeg s t seg e2 = true ∧ e2.note_id = n
          ∧ srcHas e2 "scribnews" = true)
    ∧ (noteNotas log s t seg n = true ↔
        ∃ e2 ∈ log, pubWinSeg s t seg e2 = true ∧ e2.note_id = n)
    ∧ (srcHas e "scribnews" = true →
        e.email_editor.map strCodes ≠ some (strCodes "infobae") →
        fuenteOf e = "Scribnews") := by
  have hbucket : ∀ needle : String, noteBucket log s t seg needle n = true ↔
      ∃ e2 ∈ log, pubWinSeg s t seg e2 = true ∧ e2.note_id = n
        ∧ srcHas e2 needle = true := by
    intro needle
    unfold noteBucket
    rw [List.any_eq_true]
    constructor
    · rintro ⟨e2, he2, hc⟩
      simp only [Bool.and_eq_true, beq_iff_eq] at hc
      exact ⟨e2, he2, hc.1.1, hc.1.2, hc.2⟩
    · rintro ⟨e2, he2, h1, h2, h3⟩
      exact ⟨e2, he2, by simp [h1, h2, h3]⟩
  refine ⟨?_, hbucket "composer", hbucket "scribnews", ?_, ?_⟩
  · intro hnull
    constructor
    · cases hB : noteBucket log s t seg "composer" n with
      | false => rfl
      | true =>
        obtain ⟨e2, he2, -, hn2, hsrc⟩ := (hbucket "composer").mp hB
        rw [srcHas, hnull e2 he2 hn2] at hsrc
        exact absurd hsrc (by simp)
    · cases hB : noteBucket log s t seg "scribnews" n with
      | false => rfl
      | true =>
        obtain ⟨e2, he2, -, hn2, hsrc⟩ := (hbucket "scribnews").mp hB
        rw [srcHas, hnull e2 he2 hn2] at hsrc
        exact absurd hsrc (by simp)
  · unfold noteNotas
    rw [List.any_eq_true]
    constructor
    · rintro ⟨e2, he2, hc⟩
      simp only [Bool.and_eq_true, beq_iff_eq] at hc
      exact ⟨e2, he2, hc.1, hc.2⟩
    · rintro ⟨e2, he2, h1, h2⟩
      exact ⟨e2, he2, by simp [h1, h2]⟩
  · intro hscrib hmail
    have hfalse : (e.email_editor.map strCodes == some (strCodes "infobae")) = false := by
      simp [hmail]
    simp [fuenteOf, hfalse, hscrib]

/-- C6 witness: a source containing both needles and a non-agency
email is classified `Scribnews` by the source-efficiency chain. -/
theorem c6_bucket_semantics_witness :
    fuenteOf ⟨2, some "y", "FIRST_PUBLISH", 0, 0, none, none,
      some "ScribnewsComposer"⟩ = "Scribnews" :=
  (c6_bucket_semantics [] 0 0 "" 0
    ⟨2, some "y", "FIRST_PUBLISH", 0, 0, none, none,
      some "ScribnewsComposer"⟩).2.2.2.2 (by decide) (by decide)

end Infobae
